import Mathlib

/-!
Shallow embedding of `screen_person_detection.py` (class `ScreenPersonDetector`).

The program is a linear capture loop (grab screen, convert, run YOLO restricted
to class 0 = person, draw boxes into a transparent tkinter overlay window),
wrapped in window and thread lifecycle management.

Modelling conventions:
* `DetectorState` carries the instance attributes of `ScreenPersonDetector`
  that the control flow reads or writes (`running`, `overlay_window`,
  `frame_skip`, `frame_count`, `last_output_time`, `output_interval`,
  `confidence_threshold`, `verbose`) plus the observable environment those
  attributes act on: the canvas primitives drawn by `update_overlay`, the set
  of toolkit windows currently alive (`liveWindows`, identified by `Nat` ids),
  and the lines printed so far (`output`).
* Time (`time.time()`) is a rational number supplied by the environment at
  each call site; sleeping has no state effect and is not modelled.
* Toolkit calls that can raise `tk.TclError` are modelled with `Except`:
  `tkDestroy` fails exactly when the window is no longer alive, and every
  caller in the source wraps the call in `try/except tk.TclError: pass`,
  which the embedding reproduces by catching the `Except.error` branch.
* The external YOLO call is opaque in the source; its confidence filtering is
  modelled from the spec (see `detect`). Everything else is translated from
  the source line by line.
* A loop iteration's interaction with the environment (the raw detections the
  model returns, or an exception raised anywhere in the capture / convert /
  infer / render steps) is an oracle value of type `StepOutcome`.
-/

namespace ScreenPersonDetection

/-- One detection tuple `(x1, y1, x2, y2, confidence)` as built at
`detections.append((x1, y1, x2, y2, confidence))` in `process_screen`;
coordinates are `int`-mapped pixel values, confidence a score in `[0,1]`
modelled as a rational. -/
structure Detection where
  x1 : Int
  y1 : Int
  x2 : Int
  y2 : Int
  conf : ℚ
deriving DecidableEq

/-- A drawing primitive on the tkinter canvas: `canvas.create_rectangle`
(with optional fill, outline colour and outline width) or
`canvas.create_text` (position, content, fill colour, anchor). -/
inductive Prim where
  | rect (x1 y1 x2 y2 : Int) (fill : Option String) (outline : String) (width : Nat)
  | text (x y : Int) (content : String) (fill : String) (anchor : String)
deriving DecidableEq

/-- Observable toolkit lifecycle events: an actual `destroy()` of a live
window, and the allocation of a fresh `tk.Tk()` window. -/
inductive Event where
  | destroyWindow (id : Nat)
  | createWindow (id : Nat)
deriving DecidableEq

/-- The mutable state of a `ScreenPersonDetector` instance together with the
observable toolkit and console environment. -/
structure DetectorState where
  verbose : Bool
  confidence_threshold : ℚ
  running : Bool
  overlay_window : Option Nat
  canvas : List Prim
  frame_skip : Nat
  frame_count : Nat
  last_output_time : ℚ
  output_interval : ℚ
  nextWindowId : Nat
  liveWindows : List Nat
  output : List String
deriving DecidableEq

/-- The fatal constructor error: `raise FileNotFoundError(f"模型文件 {model_path} 不存在")`. -/
inductive InitError where
  | fileNotFound (model_path : String)
deriving DecidableEq

/-- `window.destroy()`: succeeds (removing the window from the live set) when
the window is still alive, raises `tk.TclError` (modelled as `Except.error`)
when it was already closed. -/
def tkDestroy (live : List Nat) (w : Nat) : Except Unit (List Nat) :=
  if w ∈ live then Except.ok (live.erase w) else Except.error ()

/-- Python's `f"{confidence:.2f}"` on a nonnegative rational: round to the
nearest hundredth (`fmt2_num` below proves the first `let` is
`⌊q * 100 + 1 / 2⌋`) and print with exactly two digits after the point. -/
def fmt2 (q : ℚ) : String :=
  let n : Nat := ((q.num * 200 + (q.den : Int)) / (2 * (q.den : Int))).toNat
  toString (n / 100) ++ "." ++ (if n % 100 < 10 then "0" else "") ++ toString (n % 100)

/-- The primitives one iteration of the `for detection in detections` body of
`update_overlay` draws: the bounding-box outline
(`create_rectangle(x1, y1, x2, y2, outline='red', width=3)`), the white label
background (`create_rectangle(x1-2, y1-25, x1+120, y1-5, fill='white',
outline='red', width=1)`) and the label text
(`create_text(x1, y1 - 10, text=f"Person: {confidence:.2f}", fill='red',
anchor='sw')`). -/
def drawDetection (d : Detection) : List Prim :=
  [Prim.rect d.x1 d.y1 d.x2 d.y2 none "red" 3,
   Prim.rect (d.x1 - 2) (d.y1 - 25) (d.x1 + 120) (d.y1 - 5) (some "white") "red" 1,
   Prim.text d.x1 (d.y1 - 10) ("Person: " ++ fmt2 d.conf) "red" "sw"]

/-- The canvas contents after `canvas.delete("all")` followed by the drawing
loop of `update_overlay`: the concatenation of each detection's primitives. -/
def renderPrims : List Detection → List Prim
  | [] => []
  | d :: ds => drawDetection d ++ renderPrims ds

/-- The coordinates of the unfilled (bounding-box outline) rectangles on a
canvas, in drawing order. -/
def boxRects (c : List Prim) : List (Int × Int × Int × Int) :=
  c.filterMap fun p =>
    match p with
    | Prim.rect a b c d none _ _ => some (a, b, c, d)
    | _ => none

/-- The filled rectangles on a canvas (the label backgrounds). -/
def labelBgRects (c : List Prim) : List Prim :=
  c.filter fun p =>
    match p with
    | Prim.rect _ _ _ _ (some _) _ _ => true
    | _ => false

/-- The text contents on a canvas, in drawing order. -/
def labelTexts (c : List Prim) : List String :=
  c.filterMap fun p =>
    match p with
    | Prim.text _ _ content _ _ => some content
    | _ => none

/-- `ScreenPersonDetector.__init__`: checks `os.path.exists(model_path)`
(the boolean `modelFileExists` is that environment fact), raising
`FileNotFoundError` when absent, otherwise printing the verbose banner and
initialising every attribute exactly as lines 26-48 of the source do
(`running = False`, `overlay_window = None`, `frame_skip = 1`,
`frame_count = 0`, `last_output_time = time.time()` = `t0`,
`output_interval = 5`). -/
def screenInit (modelFileExists : Bool) (model_path : String)
    (confidence_threshold : ℚ) (verbose : Bool) (t0 : ℚ) :
    Except InitError DetectorState :=
  if modelFileExists then
    Except.ok
      { verbose := verbose
        confidence_threshold := confidence_threshold
        running := false
        overlay_window := none
        canvas := []
        frame_skip := 1
        frame_count := 0
        last_output_time := t0
        output_interval := 5
        nextWindowId := 0
        liveWindows := []
        output := if verbose then ["使用本地模型文件: " ++ model_path] else [] }
  else
    Except.error (InitError.fileNotFound model_path)

/-- How the `try` block of `create_overlay_window` (lines 59-78) can go:
the whole creation sequence succeeds; the `tk.Tk()` allocation itself raises
(nothing is created); or the allocation succeeds and one of the later
configuration calls raises (`geometry`, `overrideredirect`, `attributes`,
canvas creation, the bindings). -/
inductive CreateOutcome where
  | success
  | allocFails
  | configFails
deriving DecidableEq

/-- `ScreenPersonDetector.create_overlay_window`: if a window reference
exists, destroy it first, swallowing `tk.TclError` if it was already closed;
then run the creation sequence. On success the fresh `tk.Tk()` window,
with an empty canvas, becomes the referenced window. On either failure the
`except Exception` handler (lines 79-82) prints the verbose error line and
sets `self.overlay_window = None`, and no exception escapes — but when the
failure comes after `tk.Tk()` succeeded, the freshly allocated window is
never destroyed: it stays alive and is merely leaked, only the reference
being cleared. -/
def create_overlay_window (s : DetectorState) (o : CreateOutcome) :
    DetectorState × List Event :=
  let old :=
    match s.overlay_window with
    | none => (s, ([] : List Event))
    | some w =>
      match tkDestroy s.liveWindows w with
      | Except.ok live2 => ({ s with liveWindows := live2 }, [Event.destroyWindow w])
      | Except.error _ => (s, [])
  let s1 := old.1
  match o with
  | CreateOutcome.success =>
    let wid := s1.nextWindowId
    ({ s1 with
        overlay_window := some wid
        liveWindows := s1.liveWindows ++ [wid]
        nextWindowId := wid + 1
        canvas := [] },
     old.2 ++ [Event.createWindow wid])
  | CreateOutcome.allocFails =>
    ({ s1 with
        overlay_window := none
        output := if s1.verbose then s1.output ++ ["创建覆盖窗口时出现错误"] else s1.output },
     old.2)
  | CreateOutcome.configFails =>
    let wid := s1.nextWindowId
    ({ s1 with
        overlay_window := none
        liveWindows := s1.liveWindows ++ [wid]
        nextWindowId := wid + 1
        output := if s1.verbose then s1.output ++ ["创建覆盖窗口时出现错误"] else s1.output },
     old.2 ++ [Event.createWindow wid])

/-- `ScreenPersonDetector.update_overlay`: returns immediately when
`self.overlay_window is None`; otherwise clears the canvas and redraws every
detection. `windowDestroyedConcurrently` is the environment fact that the
window was destroyed under the call, making a toolkit call raise
`tk.TclError`; the handler then just sets `self.overlay_window = None`. -/
def update_overlay (s : DetectorState) (detections : List Detection)
    (windowDestroyedConcurrently : Bool) : DetectorState :=
  match s.overlay_window with
  | none => s
  | some _ =>
    if windowDestroyedConcurrently then
      { s with overlay_window := none }
    else
      { s with canvas := renderPrims detections }

/-- Modelled from the spec: the confidence filtering performed inside the
external YOLO call `self.model(frame, conf=self.confidence_threshold,
classes=[0], device=device)` — the library itself is outside this repository
and the spec describes the threshold as the "minimum score for a detection to
be kept", restricted to the person class. `raw` is the scored person boxes
the network produces for the frame before thresholding. -/
def detect (raw : List Detection) (confidence_threshold : ℚ) : List Detection :=
  raw.filter fun d => decide (confidence_threshold ≤ d.conf)

/-- What the environment does during one loop iteration: either the capture /
convert / infer / render steps run, with `raw` the scored boxes the model
produces and `windowDestroyedConcurrently` as in `update_overlay`, or some
step raises an exception with message `msg`. -/
inductive StepOutcome where
  | ok (raw : List Detection) (windowDestroyedConcurrently : Bool)
  | exn (msg : String)
deriving DecidableEq

/-- One iteration of the `while self.running` body of
`ScreenPersonDetector.process_screen` (lines 130-181): increment
`frame_count`; skip the frame when `frame_count % frame_skip != 0`; otherwise
capture, convert, infer (`detect`), render (`update_overlay`), print the
5-second status line, and run `gc.collect()` every 30 frames (no observable
state). Any exception in the body is caught by the inner `except Exception`
handler, which prints a rate-limited error line (at most once per second)
and sleeps 0.1 s before the next iteration. `now` is `time.time()` for this
iteration. -/
def loop_iteration (s : DetectorState) (now : ℚ) (o : StepOutcome) : DetectorState :=
  let s := { s with frame_count := s.frame_count + 1 }
  if s.frame_count % s.frame_skip ≠ 0 then
    s
  else
    match o with
    | StepOutcome.exn msg =>
      if s.verbose = true ∧ 1 ≤ now - s.last_output_time then
        { s with
            output := s.output ++ ["处理错误: " ++ msg.take 100 ++ "..."]
            last_output_time := now }
      else s
    | StepOutcome.ok raw cd =>
      let detections := detect raw s.confidence_threshold
      let s := update_overlay s detections cd
      if s.verbose = true ∧ s.output_interval ≤ now - s.last_output_time then
        { s with
            output := s.output ++
              ["[状态更新] 已处理 " ++ toString s.frame_count ++ " 帧, 检测到 " ++
                toString detections.length ++ " 个人物"]
            last_output_time := now }
      else s

/-- The `while self.running` loop of `process_screen`, driven by a finite
trace of per-iteration environment outcomes (each tagged with its
`time.time()` value); the loop exits when `running` is false, and the trace
running out models observing the system after finitely many iterations. -/
def process_screen_loop : DetectorState → List (ℚ × StepOutcome) → DetectorState
  | s, [] => s
  | s, (t, o) :: rest =>
    if s.running = true then process_screen_loop (loop_iteration s t o) rest else s

/-- `ScreenPersonDetector.stop_detection`: set `running = False`, join the
worker with a 1 s timeout (no state effect), then, only when a window
reference exists, destroy it — but the `quit()`/`destroy()` pair is guarded
by `threading.current_thread() == threading.main_thread()` (`isMainThread`),
with `tk.TclError` swallowed — and clear the reference unconditionally;
finally print the verbose stop line. -/
def stop_detection (s : DetectorState) (isMainThread : Bool) :
    DetectorState × List Event :=
  let s1 := { s with running := false }
  let r :=
    match s1.overlay_window with
    | none => (s1, ([] : List Event))
    | some w =>
      if isMainThread then
        match tkDestroy s1.liveWindows w with
        | Except.ok live2 =>
          ({ s1 with overlay_window := none, liveWindows := live2 },
           [Event.destroyWindow w])
        | Except.error _ => ({ s1 with overlay_window := none }, [])
      else
        ({ s1 with overlay_window := none }, [])
  ({ r.1 with output := if r.1.verbose then r.1.output ++ ["检测已停止"] else r.1.output },
   r.2)

/-- `ScreenPersonDetector.start_detection`: set `running = True`, create the
overlay window, launch the worker thread (whose behaviour is
`process_screen_loop`), then enter `overlay_window.mainloop()` only when
`self.overlay_window` is truthy. The returned boolean records whether the
mainloop was entered. -/
def start_detection (s : DetectorState) (o : CreateOutcome) :
    DetectorState × Bool :=
  let s1 := { s with running := true }
  let s2 := (create_overlay_window s1 o).1
  match s2.overlay_window with
  | some _ => (s2, true)
  | none => (s2, false)

/-- The rational 0.87, in lowest terms (the confidence of the spec's
end-to-end scenario detection). -/
def q87 : ℚ := ⟨87, 100, by decide, by decide⟩

/-- The rational 0.3, in lowest terms (the default `confidence_threshold`). -/
def q310 : ℚ := ⟨3, 10, by decide, by decide⟩

/-- The rational 0.7, in lowest terms (a second threshold used as a concrete
instance). -/
def q710 : ℚ := ⟨7, 10, by decide, by decide⟩

/-- A representative post-construction state with one live overlay window
(id 0), as produced by a successful `screenInit` followed by
`create_overlay_window`; used to instantiate hypotheses at concrete inputs. -/
def sampleState : DetectorState :=
  { verbose := false
    confidence_threshold := q310
    running := true
    overlay_window := some 0
    canvas := []
    frame_skip := 1
    frame_count := 0
    last_output_time := 0
    output_interval := 5
    nextWindowId := 1
    liveWindows := [0]
    output := [] }

/-- A list of raw scored person boxes used as a concrete model output. -/
def sampleRaw : List Detection :=
  [⟨10, 10, 50, 90, q87⟩, ⟨100, 100, 200, 300, q310⟩, ⟨0, 0, 5, 5, q710⟩]

/-- The integer computed inside `fmt2` is the mathematical rounding
`⌊q * 100 + 1 / 2⌋`: `fmt2` really formats the nearest hundredth. -/
theorem fmt2_num (q : ℚ) :
    (q.num * 200 + (q.den : Int)) / (2 * (q.den : Int)) = ⌊q * 100 + 1 / 2⌋ := by
  have hd : (q.den : ℚ) ≠ 0 := Nat.cast_ne_zero.mpr q.den_nz
  have key : q * (q.den : ℚ) = (q.num : ℚ) := by
    nth_rewrite 1 [← Rat.num_div_den q]
    exact div_mul_cancel₀ _ hd
  have h2d : ((2 * q.den : ℕ) : ℚ) ≠ 0 := by
    push_cast
    simp [hd]
  have h : q * 100 + 1 / 2 =
      ((q.num * 200 + (q.den : Int) : ℤ) : ℚ) / ((2 * q.den : ℕ) : ℚ) := by
    rw [eq_div_iff h2d]
    push_cast
    linear_combination (200 : ℚ) * key
  rw [h, Rat.floor_intCast_div_natCast]
  push_cast
  rfl

/-- The `Rat.mk'` literals agree with the corresponding divisions. -/
theorem q_literals : q87 = 87 / 100 ∧ q310 = 3 / 10 ∧ q710 = 7 / 10 := by
  refine ⟨?_, ?_, ?_⟩
  · rw [← Rat.num_div_den q87]
    show ((87 : ℤ) : ℚ) / ((100 : ℕ) : ℚ) = 87 / 100
    push_cast
    norm_num
  · rw [← Rat.num_div_den q310]
    show ((3 : ℤ) : ℚ) / ((10 : ℕ) : ℚ) = 3 / 10
    push_cast
    norm_num
  · rw [← Rat.num_div_den q710]
    show ((7 : ℤ) : ℚ) / ((10 : ℕ) : ℚ) = 7 / 10
    push_cast
    norm_num

/-- The bounding-box outlines drawn for a detection list: one unfilled
rectangle per detection, at exactly the detection's coordinates, in order. -/
theorem boxRects_renderPrims (ds : List Detection) :
    boxRects (renderPrims ds) = ds.map fun d => (d.x1, d.y1, d.x2, d.y2) := by
  induction ds with
  | nil => rfl
  | cons d ds ih =>
    show boxRects (drawDetection d ++ renderPrims ds) = _
    simp only [boxRects, List.filterMap_append] at ih ⊢
    rw [ih]
    rfl

/-- The label texts drawn for a detection list: one `"Person: "` label with
the two-decimal confidence per detection, in order. -/
theorem labelTexts_renderPrims (ds : List Detection) :
    labelTexts (renderPrims ds) = ds.map fun d => "Person: " ++ fmt2 d.conf := by
  induction ds with
  | nil => rfl
  | cons d ds ih =>
    show labelTexts (drawDetection d ++ renderPrims ds) = _
    simp only [labelTexts, List.filterMap_append] at ih ⊢
    rw [ih]
    rfl

/-- One filled label-background rectangle is drawn per detection. -/
theorem labelBgRects_renderPrims_length (ds : List Detection) :
    (labelBgRects (renderPrims ds)).length = ds.length := by
  induction ds with
  | nil => rfl
  | cons d ds ih =>
    show (labelBgRects (drawDetection d ++ renderPrims ds)).length = _
    simp only [labelBgRects, List.filter_append, List.length_append] at ih ⊢
    rw [ih]
    show 1 + ds.length = ds.length + 1
    omega

/-- `loop_iteration` never touches the `running` flag, always increments the
frame counter by exactly one, and leaves the frame-skip stride unchanged. -/
theorem loop_iteration_fields (s : DetectorState) (t : ℚ) (o : StepOutcome) :
    (loop_iteration s t o).running = s.running ∧
    (loop_iteration s t o).frame_count = s.frame_count + 1 ∧
    (loop_iteration s t o).frame_skip = s.frame_skip := by
  obtain ⟨v, ct, r, ow, cv, fs, fc, lo, oi, nw, lw, out⟩ := s
  unfold loop_iteration
  cases o with
  | exn msg =>
    dsimp only
    split_ifs <;> exact ⟨rfl, rfl, rfl⟩
  | ok raw cd =>
    cases ow <;> cases cd <;> dsimp only [update_overlay] <;> split_ifs <;>
      exact ⟨rfl, rfl, rfl⟩

/-- The exception handler of the loop body logs at most one line, and only
when verbose and at least one second has passed since the last line
(rate-limiting); stated for the source's configuration `frame_skip = 1`. -/
theorem loop_iteration_exn_log (s : DetectorState) (hskip : s.frame_skip = 1)
    (t : ℚ) (msg : String) :
    (loop_iteration s t (StepOutcome.exn msg)).output.length
      = s.output.length +
        (if s.verbose = true ∧ 1 ≤ t - s.last_output_time then 1 else 0) := by
  obtain ⟨v, ct, r, ow, cv, fs, fc, lo, oi, nw, lw, out⟩ := s
  replace hskip : fs = 1 := hskip
  subst hskip
  unfold loop_iteration
  dsimp only
  rw [if_neg (by simp [Nat.mod_one])]
  split_ifs <;> simp

/-- C1: if an exception is raised during the capture, convert, infer or
render steps of a loop iteration, the loop does not terminate: the handler
leaves `running` untouched (so the `while` condition still holds), logs at
most one rate-limited error line, and the loop proceeds to the next
iteration, on which the frame counter has advanced again (by one per
iteration). Stated for the source's configuration `frame_skip = 1`. -/
theorem loop_survives_iteration_exception
    (s : DetectorState) (h : s.running = true) (hskip : s.frame_skip = 1)
    (t1 t2 : ℚ) (msg : String) (o : StepOutcome) (rest : List (ℚ × StepOutcome)) :
    (loop_iteration s t1 (StepOutcome.exn msg)).running = true ∧
    (loop_iteration s t1 (StepOutcome.exn msg)).frame_count = s.frame_count + 1 ∧
    (loop_iteration (loop_iteration s t1 (StepOutcome.exn msg)) t2 o).frame_count
      = s.frame_count + 2 ∧
    (loop_iteration s t1 (StepOutcome.exn msg)).output.length
      = s.output.length +
        (if s.verbose = true ∧ 1 ≤ t1 - s.last_output_time then 1 else 0) ∧
    process_screen_loop s ((t1, StepOutcome.exn msg) :: rest)
      = process_screen_loop (loop_iteration s t1 (StepOutcome.exn msg)) rest := by
  refine ⟨?_, ?_, ?_, ?_, ?_⟩
  · rw [(loop_iteration_fields s t1 (StepOutcome.exn msg)).1, h]
  · exact (loop_iteration_fields s t1 (StepOutcome.exn msg)).2.1
  · rw [(loop_iteration_fields _ t2 o).2.1,
      (loop_iteration_fields s t1 (StepOutcome.exn msg)).2.1]
  · exact loop_iteration_exn_log s hskip t1 msg
  · simp [process_screen_loop, h]

theorem loop_survives_iteration_exception_witness :
    (loop_iteration sampleState 0 (StepOutcome.exn "forced error")).running = true ∧
    (loop_iteration (loop_iteration sampleState 0 (StepOutcome.exn "forced error")) 1
        (StepOutcome.ok [] false)).frame_count = 2 :=
  ⟨(loop_survives_iteration_exception sampleState rfl rfl 0 1 "forced error"
      (StepOutcome.ok [] false) []).1,
   (loop_survives_iteration_exception sampleState rfl rfl 0 1 "forced error"
      (StepOutcome.ok [] false) []).2.2.1⟩

/-- C2: `update_overlay` on a live window first clears the canvas (the
resulting canvas is `renderPrims detections`, independent of the previous
canvas), then draws per detection exactly one outline rectangle at the
detection's own coordinates, one label text `"Person: "` followed by the
confidence to two decimal places, and one filled background rectangle; the
empty list yields a canvas with zero rectangles, and the single detection
`(10, 10, 50, 90)` with confidence `0.87` yields exactly the outline
rectangle at those coordinates, its background, and a label containing
`"0.87"`. -/
theorem update_overlay_draws
    (s : DetectorState) (w : Nat) (h : s.overlay_window = some w)
    (ds : List Detection) :
    (update_overlay s ds false).canvas = renderPrims ds ∧
    boxRects ((update_overlay s ds false).canvas)
      = ds.map (fun d => (d.x1, d.y1, d.x2, d.y2)) ∧
    labelTexts ((update_overlay s ds false).canvas)
      = ds.map (fun d => "Person: " ++ fmt2 d.conf) ∧
    (labelBgRects ((update_overlay s ds false).canvas)).length = ds.length ∧
    (update_overlay s [] false).canvas = [] ∧
    (update_overlay s [⟨10, 10, 50, 90, q87⟩] false).canvas =
      [Prim.rect 10 10 50 90 none "red" 3,
       Prim.rect 8 (-15) 130 5 (some "white") "red" 1,
       Prim.text 10 0 ("Person: " ++ "0.87") "red" "sw"] := by
  have hc : ∀ ds2 : List Detection,
      (update_overlay s ds2 false).canvas = renderPrims ds2 := by
    intro ds2
    unfold update_overlay
    rw [h]
    rfl
  refine ⟨hc ds, ?_, ?_, ?_, hc [], ?_⟩
  · rw [hc]
    exact boxRects_renderPrims ds
  · rw [hc]
    exact labelTexts_renderPrims ds
  · rw [hc]
    exact labelBgRects_renderPrims_length ds
  · rw [hc]
    decide

theorem update_overlay_draws_witness :
    (update_overlay sampleState [] false).canvas = [] :=
  (update_overlay_draws sampleState 0 rfl []).2.2.2.2.1

/-- C3: with a live window and the call made from the main thread (the only
context the program ever calls it from), `stop_detection` is idempotent:
both calls leave `running` false, the first call destroys the window exactly
once, and the second finds no window reference and performs no destruction;
no error escapes (`tk.TclError` is caught, and the model is total). -/
theorem stop_detection_idempotent
    (s : DetectorState) (w : Nat)
    (hw : s.overlay_window = some w) (hl : s.liveWindows = [w]) :
    (stop_detection s true).1.running = false ∧
    (stop_detection s true).2 = [Event.destroyWindow w] ∧
    (stop_detection s true).1.overlay_window = none ∧
    (stop_detection s true).1.liveWindows = [] ∧
    (stop_detection (stop_detection s true).1 true).1.running = false ∧
    (stop_detection (stop_detection s true).1 true).2 = [] ∧
    (stop_detection (stop_detection s true).1 true).1.liveWindows = [] ∧
    ((stop_detection s true).2 ++
        (stop_detection (stop_detection s true).1 true).2).count
      (Event.destroyWindow w) = 1 := by
  obtain ⟨v, ct, r, ow, cv, fs, fc, lo, oi, nw, lw, out⟩ := s
  replace hw : ow = some w := hw
  replace hl : lw = [w] := hl
  subst hw hl
  simp [stop_detection, tkDestroy]

theorem stop_detection_idempotent_witness :
    (stop_detection sampleState true).2 = [Event.destroyWindow 0] ∧
    (stop_detection (stop_detection sampleState true).1 true).2 = [] :=
  ⟨(stop_detection_idempotent sampleState 0 rfl rfl).2.1,
   (stop_detection_idempotent sampleState 0 rfl rfl).2.2.2.2.2.1⟩

/-- C4 counterexample: after a creation attempt that fails past the
`tk.Tk()` allocation, window 1 is alive while the reference is `None`
(lines 79-82 leak it); the next `create_overlay_window` call is therefore
made while an overlay window instance exists, yet it destroys nothing
(zero destroy events for window 1) and allocates a second window, leaving
two overlay window instances alive at once — refuting both the
destroy-old-before-create universal and the at-most-one-instance
invariant of the claim. -/
theorem create_second_window_leak :
    (create_overlay_window sampleState CreateOutcome.configFails).1.liveWindows
      = [1] ∧
    (create_overlay_window sampleState CreateOutcome.configFails).1.overlay_window
      = none ∧
    (create_overlay_window
        (create_overlay_window sampleState CreateOutcome.configFails).1
        CreateOutcome.success).2.count (Event.destroyWindow 1) = 0 ∧
    (create_overlay_window
        (create_overlay_window sampleState CreateOutcome.configFails).1
        CreateOutcome.success).1.liveWindows = [1, 2] := by
  exact ⟨rfl, rfl, by decide, rfl⟩

/-- C4 (amended): whenever `create_overlay_window` is called while the
detector's window *reference* is set (and that window is the one live
window), the referenced window is destroyed before anything is created —
the destroy event precedes any create event — and the single call leaves at
most one window live: the fresh one on success, none when `tk.Tk()` itself
fails, and the leaked fresh one (with the reference cleared) when a
configuration step fails after allocation. A window alive without being
referenced is not destroyed, so across calls the at-most-one-instance
invariant can fail (see the counterexample). -/
theorem create_overlay_window_destroys_referenced_old
    (s : DetectorState) (w : Nat) (o : CreateOutcome)
    (hw : s.overlay_window = some w) (hl : s.liveWindows = [w]) :
    (create_overlay_window s o).2.head? = some (Event.destroyWindow w) ∧
    (create_overlay_window s o).1.liveWindows.length ≤ 1 ∧
    (create_overlay_window s CreateOutcome.success).2
      = [Event.destroyWindow w, Event.createWindow s.nextWindowId] ∧
    (create_overlay_window s CreateOutcome.success).1.liveWindows
      = [s.nextWindowId] ∧
    (create_overlay_window s CreateOutcome.success).1.overlay_window
      = some s.nextWindowId ∧
    (create_overlay_window s CreateOutcome.allocFails).2
      = [Event.destroyWindow w] ∧
    (create_overlay_window s CreateOutcome.allocFails).1.liveWindows = [] ∧
    (create_overlay_window s CreateOutcome.allocFails).1.overlay_window
      = none ∧
    (create_overlay_window s CreateOutcome.configFails).2
      = [Event.destroyWindow w, Event.createWindow s.nextWindowId] ∧
    (create_overlay_window s CreateOutcome.configFails).1.liveWindows
      = [s.nextWindowId] ∧
    (create_overlay_window s CreateOutcome.configFails).1.overlay_window
      = none := by
  obtain ⟨v, ct, r, ow, cv, fs, fc, lo, oi, nw, lw, out⟩ := s
  replace hw : ow = some w := hw
  replace hl : lw = [w] := hl
  subst hw hl
  cases o <;> simp [create_overlay_window, tkDestroy]

theorem create_overlay_window_destroys_referenced_old_witness :
    (create_overlay_window sampleState CreateOutcome.success).2
      = [Event.destroyWindow 0, Event.createWindow 1] ∧
    (create_overlay_window sampleState CreateOutcome.success).1.liveWindows
      = [1] :=
  ⟨(create_overlay_window_destroys_referenced_old sampleState 0
      CreateOutcome.success rfl rfl).2.2.1,
   (create_overlay_window_destroys_referenced_old sampleState 0
      CreateOutcome.success rfl rfl).2.2.2.1⟩

/-- C5: confidence-threshold filtering is antitone: for thresholds
`t1 < t2`, every detection the model call returns at threshold `t2` is also
returned at threshold `t1`, on the same raw model output. -/
theorem detect_threshold_antitone
    (raw : List Detection) (t1 t2 : ℚ) (h : t1 < t2) :
    detect raw t2 ⊆ detect raw t1 := by
  intro d hd
  simp only [detect, List.mem_filter, decide_eq_true_eq] at hd ⊢
  exact ⟨hd.1, h.le.trans hd.2⟩

theorem detect_threshold_antitone_witness :
    q310 < q710 ∧ detect sampleRaw q710 ⊆ detect sampleRaw q310 :=
  ⟨by decide, detect_threshold_antitone sampleRaw q310 q710 (by decide)⟩

/-- C6: rendering is idempotent: two consecutive `update_overlay` calls with
the same detection list (and the same concurrent-destruction circumstance)
leave exactly the state a single call leaves — the second call's
`canvas.delete("all")` removes everything the first drew before redrawing,
so no stale boxes accumulate. -/
theorem update_overlay_idempotent
    (s : DetectorState) (ds : List Detection) (cd : Bool) :
    update_overlay (update_overlay s ds cd) ds cd = update_overlay s ds cd := by
  obtain ⟨v, ct, r, ow, cv, fs, fc, lo, oi, nw, lw, out⟩ := s
  cases ow <;> cases cd <;> rfl

/-- C7: construction (`__init__`) fails exactly on a missing model weights
file, with a file-not-found error naming the configured path, and this
happens before any loop state exists; when the file exists, construction
succeeds (never raising that error) and returns the initial state with the
loop not yet running and the frame counter at zero. -/
theorem screenInit_fileNotFound
    (model_path : String) (thr : ℚ) (v : Bool) (t0 : ℚ) :
    screenInit false model_path thr v t0
      = Except.error (InitError.fileNotFound model_path) ∧
    (∃ s0, screenInit true model_path thr v t0 = Except.ok s0 ∧
      s0.running = false ∧ s0.frame_count = 0) := by
  exact ⟨rfl, ⟨_, rfl, rfl, rfl⟩⟩

/-- C8: when the window is destroyed concurrently during a render, the
toolkit error is swallowed (no output, no propagation — the model stays
total), the window reference is set to `None`, and from then on every
`update_overlay` call is a no-op (returns the state unchanged) until a
window is recreated. -/
theorem update_overlay_window_destroyed
    (s : DetectorState) (w : Nat) (h : s.overlay_window = some w)
    (ds ds2 : List Detection) (cd2 : Bool) :
    (update_overlay s ds true).overlay_window = none ∧
    (update_overlay s ds true).output = s.output ∧
    update_overlay (update_overlay s ds true) ds2 cd2
      = update_overlay s ds true := by
  obtain ⟨v, ct, r, ow, cv, fs, fc, lo, oi, nw, lw, out⟩ := s
  replace h : ow = some w := h
  subst h
  exact ⟨rfl, rfl, rfl⟩

theorem update_overlay_window_destroyed_witness :
    (update_overlay sampleState [] true).overlay_window = none :=
  (update_overlay_window_destroyed sampleState 0 rfl [] [] false).1

/-- C9 counterexample: at a concrete state with one live window, calling
`stop_detection` from a non-main context performs no destruction at all —
zero destroy events, the window still alive afterwards — while the window
reference is dropped to `None`; nothing is deferred or routed to the
UI-owning context (the refutation of the claim that destruction is deferred
or routed rather than dropped). -/
theorem stop_detection_nonmain_drops_destroy :
    (stop_detection sampleState false).2.count (Event.destroyWindow 0) = 0 ∧
    (stop_detection sampleState false).1.liveWindows = [0] ∧
    (stop_detection sampleState false).1.overlay_window = none := by
  exact ⟨rfl, rfl, rfl⟩

/-- C9 (amended): `stop_detection` destroys the overlay window only when
called from the main (UI-owning) thread; when called from any other context
the destruction is skipped entirely — no destroy event, the window stays
alive — and the reference is cleared anyway, while `running` is still set to
false. -/
theorem stop_detection_destroy_only_from_main
    (s : DetectorState) (w : Nat)
    (hw : s.overlay_window = some w) (hl : w ∈ s.liveWindows) :
    (stop_detection s true).2 = [Event.destroyWindow w] ∧
    (stop_detection s true).1.liveWindows = s.liveWindows.erase w ∧
    (stop_detection s true).1.overlay_window = none ∧
    (stop_detection s false).2 = [] ∧
    (stop_detection s false).1.liveWindows = s.liveWindows ∧
    (stop_detection s false).1.overlay_window = none ∧
    (stop_detection s false).1.running = false := by
  obtain ⟨v, ct, r, ow, cv, fs, fc, lo, oi, nw, lw, out⟩ := s
  replace hw : ow = some w := hw
  replace hl : w ∈ lw := hl
  subst hw
  simp [stop_detection, tkDestroy, hl]

theorem stop_detection_destroy_only_from_main_witness :
    (stop_detection sampleState true).2 = [Event.destroyWindow 0] ∧
    (stop_detection sampleState false).2 = [] :=
  ⟨(stop_detection_destroy_only_from_main sampleState 0 rfl (by decide)).1,
   (stop_detection_destroy_only_from_main sampleState 0 rfl (by decide)).2.2.2.1⟩

/-- C10 (implicit): a window-creation failure is silently non-fatal, at
every failure point of the creation block: whether `tk.Tk()` itself raises
or a later configuration call does, `create_overlay_window` catches the
toolkit exception (the embedding is total — nothing propagates) and leaves
the window reference `None`; `start_detection` then never enters the UI
mainloop, and every subsequent `update_overlay` call is a no-op. -/
theorem create_failure_silent
    (s : DetectorState) (ds : List Detection) (cd : Bool) :
    (create_overlay_window s CreateOutcome.allocFails).1.overlay_window
      = none ∧
    (create_overlay_window s CreateOutcome.configFails).1.overlay_window
      = none ∧
    (start_detection s CreateOutcome.allocFails).2 = false ∧
    (start_detection s CreateOutcome.allocFails).1.overlay_window = none ∧
    update_overlay (start_detection s CreateOutcome.allocFails).1 ds cd
      = (start_detection s CreateOutcome.allocFails).1 ∧
    (start_detection s CreateOutcome.configFails).2 = false ∧
    (start_detection s CreateOutcome.configFails).1.overlay_window = none ∧
    update_overlay (start_detection s CreateOutcome.configFails).1 ds cd
      = (start_detection s CreateOutcome.configFails).1 := by
  exact ⟨rfl, rfl, rfl, rfl, rfl, rfl, rfl, rfl⟩

end ScreenPersonDetection
